import Mathlib

/-!
Shallow embedding of the Medical-OpenClaw-Agent normalization pipeline.

Sources embedded here:
- src/epic/hl7-parser.ts   (class HL7Parser: segmented-record parser)
- src/fhir/parser.ts       (class FHIRParser: structured-resource parser)
- src/workato/webhook.ts   (class WorkatoWebhook: ingestion gateway / format detector)
- src/core/types.ts        (canonical message model)

Conventions of the embedding:
- TypeScript strings are Lean Strings; positional slicing is done on the
  underlying character list (String.data), mirroring JS code-unit indexing.
- Optional TS fields (foo?) become Option; absent object fields read
  through optional chaining become none.
- JS string truthiness (if (s) ...) becomes s != empty; JS "a || b" on
  strings becomes an if on emptiness; JS "a ?? b" becomes Option coalescing.
- Date.now() and new Date().toISOString() are passed in explicitly as the
  parameters nowMs / nowIso, since they are the only impure inputs.
- All functions are total Lean functions: the TS parsers contain no throw
  sites on the modelled paths, and loops with early return become List.any
  or structural recursion.
- JSON numbers are modelled by integers carrying their rendering; only
  their truthiness and string rendering are ever consumed on the modelled
  paths.
-/


/-! ## Character-level JS string primitives

The TypeScript code uses JS string methods (split, replace, trim, case
mapping, includes, join). They are modelled here by explicit structural
recursion over the character list so that every definition evaluates by
kernel reduction on concrete inputs. -/

namespace JsStr

/-- JS toUpperCase (ASCII range, which covers every code compared against). -/
def upper (s : String) : String := ⟨s.data.map Char.toUpper⟩

/-- JS toLowerCase (ASCII range). -/
def lower (s : String) : String := ⟨s.data.map Char.toLower⟩

/-- Splitting on single separator characters. -/
def splitCharGo (p : Char → Bool) (cur : List Char) : List Char → List (List Char)
  | [] => [cur.reverse]
  | c :: rest => if p c then cur.reverse :: splitCharGo p [] rest else splitCharGo p (c :: cur) rest

/-- JS split against a single-character class regex. -/
def splitChar (s : String) (p : Char → Bool) : List String :=
  (splitCharGo p [] s.data).map (fun l => ⟨l⟩)

/-- Does the second list start with the first? -/
def seqStarts : List Char → List Char → Bool
  | [], _ => true
  | _ :: _, [] => false
  | a :: as, b :: bs => a = b && seqStarts as bs

/-- Worker for splitting on a nonempty separator string; the fuel argument
makes the recursion structural and is always at least the input length, so
the fuel-exhausted branch is unreachable. -/
def splitStrGo (sep : List Char) (cur : List Char) : Nat → List Char → List (List Char)
  | _, [] => [cur.reverse]
  | 0, l => [cur.reverse ++ l]
  | Nat.succ fuel, c :: rest =>
    if seqStarts sep (c :: rest) then
      cur.reverse :: splitStrGo sep [] fuel ((c :: rest).drop sep.length)
    else splitStrGo sep (c :: cur) fuel rest

/-- JS s.split(sep) for a plain separator string. -/
def splitStr (s sep : String) : List String :=
  match sep.data with
  | [] => [s]
  | c :: cs => (splitStrGo (c :: cs) [] s.data.length s.data).map (fun l => ⟨l⟩)

/-- JS trim. -/
def trim (s : String) : String :=
  ⟨((s.data.dropWhile Char.isWhitespace).reverse.dropWhile Char.isWhitespace).reverse⟩

def joinGo (sep : List Char) : List (List Char) → List Char
  | [] => []
  | [x] => x
  | x :: y :: rest => x ++ sep ++ joinGo sep (y :: rest)

/-- JS Array.join(sep). -/
def join (sep : String) (xs : List String) : String :=
  ⟨joinGo sep.data (xs.map (fun s => s.data))⟩

def containsSeq (pat : List Char) : List Char → Bool
  | [] => seqStarts pat []
  | c :: rest => seqStarts pat (c :: rest) || containsSeq pat rest

/-- JS s.includes(pat). -/
def includes (s pat : String) : Bool := containsSeq pat.data s.data

def removeFirstGo (pat : List Char) : List Char → List Char
  | [] => []
  | c :: rest =>
    if seqStarts pat (c :: rest) then (c :: rest).drop pat.length
    else c :: removeFirstGo pat rest

/-- JS s.replace(pat, empty) with a plain-string pattern: removes only the
first occurrence. -/
def removeFirst (s pat : String) : String :=
  match pat.data with
  | [] => s
  | c :: cs => ⟨removeFirstGo (c :: cs) s.data⟩

end JsStr

/-! ## Canonical message model (src/core/types.ts) -/

structure PatientInfo where
  mrn : String
  firstName : String
  lastName : String
  dob : String
  sex : String
  epicPatientId : String
deriving DecidableEq, Repr

structure ProviderInfo where
  npi : String
  name : String
  role : String
deriving DecidableEq, Repr

structure LabResult where
  testName : String
  testCode : String
  value : String
  units : String
  referenceRange : String
  flag : String
  collectionTime : String
deriving DecidableEq, Repr

structure OrderDetails where
  orderId : String
  orderType : String
  orderDescription : String
  status : String
  priority : String
deriving DecidableEq, Repr

structure SchedulingInfo where
  studyType : String
  preferredDate : Option String
  location : Option String
  instructions : Option String
deriving DecidableEq, Repr

structure MessageContent where
  subject : String
  body : String
  urgency : String
  labResults : Option (List LabResult)
  orderDetails : Option OrderDetails
  schedulingInfo : Option SchedulingInfo
deriving DecidableEq, Repr

structure ParsedMedicalMessage where
  messageId : String
  timestamp : String
  messageType : String
  patient : PatientInfo
  provider : ProviderInfo
  content : MessageContent
  epicDeepLink : Option String
deriving DecidableEq, Repr

structure HL7Segment where
  id : String
  fields : List String
deriving DecidableEq, Repr

structure HL7Message where
  raw : String
  messageType : String
  segments : List HL7Segment
  parsed : ParsedMedicalMessage
deriving DecidableEq, Repr

/-! ## Segmented-record parser (class HL7Parser, src/epic/hl7-parser.ts) -/

namespace HL7Parser

/-- raw.split over a run of CR/LF followed by filter(Boolean): splitting on
single newline characters and dropping empty pieces yields the same list. -/
def splitLines (raw : String) : List String :=
  (JsStr.splitChar raw (fun c => c = '\n' || c = '\r')).filter (fun s => s ≠ "")

/-- HL7Parser.parseSegment: split the line on the pipe field separator. -/
def parseSegment (line : String) : HL7Segment :=
  let fields := JsStr.splitStr line "|"
  { id := fields.headD "", fields := fields }

/-- The segment list computed at the top of HL7Parser.parse. -/
def segmentsOf (raw : String) : List HL7Segment :=
  (splitLines raw).map parseSegment

/-- HL7Parser.extractField: segment.fields[index] with an empty-string default. -/
def extractField (s : HL7Segment) (index : Nat) : String :=
  s.fields.getD index ""

/-- HL7Parser.extractComponent: field.split on the caret, indexed with default. -/
def extractComponent (field : String) (index : Nat) : String :=
  (JsStr.splitStr field "^").getD index ""

/-- HL7Parser.normalizeFlag: three-tier abnormal-flag normalization. -/
def normalizeFlag (flag : String) : String :=
  let upper := JsStr.upper flag
  if upper = "H" ∨ upper = "L" ∨ upper = "A" then "abnormal"
  else if upper = "HH" ∨ upper = "LL" ∨ upper = "AA" ∨ upper = "C" then "critical"
  else if upper = "N" ∨ upper = "" then "normal"
  else ""

/-- The critical-code test applied to an OBX segment inside HL7Parser.determineUrgency. -/
def obxHasCriticalFlag (obx : HL7Segment) : Bool :=
  let flag := JsStr.upper (extractField obx 8)
  flag = "HH" ∨ flag = "LL" ∨ flag = "AA" ∨ flag = "C"

/-- HL7Parser.determineUrgency: the for-loop with early return over OBX segments
becomes List.any; then the OBR priority field is consulted. -/
def determineUrgency (obr : Option HL7Segment) (obxSegments : List HL7Segment) : String :=
  if obxSegments.any obxHasCriticalFlag then "critical"
  else
    match obr with
    | some o =>
      let priority := JsStr.upper (extractField o 27)
      if priority = "S" ∨ priority = "STAT" then "stat"
      else if priority = "A" ∨ priority = "ASAP" then "urgent"
      else "routine"
    | none => "routine"

/-- JS slice(a, b) on the character list. -/
def strSlice (ts : String) (a b : Nat) : String :=
  ⟨(ts.data.drop a).take (b - a)⟩

/-- HL7Parser.formatHL7Timestamp: reformat compact YYYYMMDDHHMMSS stamps,
returning inputs shorter than 8 characters unchanged; each of the hour,
minute, second slices falls back to 00 when empty (the JS || fallback). -/
def formatHL7Timestamp (ts : String) : String :=
  if ts.length < 8 then ts
  else
    let year := strSlice ts 0 4
    let month := strSlice ts 4 6
    let day := strSlice ts 6 8
    let hour := if strSlice ts 8 10 = "" then "00" else strSlice ts 8 10
    let minute := if strSlice ts 10 12 = "" then "00" else strSlice ts 10 12
    let second := if strSlice ts 12 14 = "" then "00" else strSlice ts 12 14
    year ++ "-" ++ month ++ "-" ++ day ++ "T" ++ hour ++ ":" ++ minute ++ ":" ++ second

/-- HL7Parser.classifyMessageType: finite map with GENERAL_NOTIFICATION default. -/
def classifyMessageType (hl7Type : String) : String :=
  if hl7Type = "ORU^R01" then "LAB_RESULT"
  else if hl7Type = "ORM^O01" then "LAB_ORDER_REQUEST"
  else if hl7Type = "SIU^S12" then "SCHEDULE_STUDY"
  else if hl7Type = "ADT^A08" then "GENERAL_NOTIFICATION"
  else if hl7Type = "RDE^O11" then "MEDICATION_REFILL"
  else if hl7Type = "REF^I12" then "REFERRAL_REQUEST"
  else "GENERAL_NOTIFICATION"

/-- The sentinel patient record substituted when no PID segment is present. -/
def sentinelPatient : PatientInfo :=
  { mrn := "UNKNOWN", firstName := "Unknown", lastName := "Patient"
    dob := "", sex := "", epicPatientId := "" }

/-- HL7Parser.extractPatient. -/
def extractPatient (pid : Option HL7Segment) : PatientInfo :=
  match pid with
  | none => sentinelPatient
  | some pid =>
    let patientId := extractField pid 3
    let patientName := extractField pid 5
    { mrn := extractComponent patientId 0
      firstName := extractComponent patientName 1
      lastName := extractComponent patientName 0
      dob := formatHL7Timestamp (extractField pid 7)
      sex := extractField pid 8
      epicPatientId := extractComponent patientId 0 }

/-- HL7Parser.extractProvider; the JS || fallbacks on the built name and the
role component become emptiness tests. -/
def extractProvider (orc : Option HL7Segment) : ProviderInfo :=
  match orc with
  | none => { npi := "", name := "Unknown Provider", role := "Unknown" }
  | some orc =>
    let orderingProvider := extractField orc 12
    let builtName :=
      JsStr.trim (extractComponent orderingProvider 2 ++ " " ++ extractComponent orderingProvider 1)
    { npi := extractComponent orderingProvider 0
      name := if builtName = "" then "Unknown Provider" else builtName
      role :=
        if extractComponent orderingProvider 9 = "" then "Ordering Provider"
        else extractComponent orderingProvider 9 }

/-- HL7Parser.extractLabResults: one LabResult per OBX segment. -/
def extractLabResults (obxSegments : List HL7Segment) : List LabResult :=
  obxSegments.map (fun obx =>
    let testIdentifier := extractField obx 3
    { testName :=
        if extractComponent testIdentifier 1 = "" then extractComponent testIdentifier 0
        else extractComponent testIdentifier 1
      testCode := extractComponent testIdentifier 0
      value := extractField obx 5
      units := extractField obx 6
      referenceRange := extractField obx 7
      flag := normalizeFlag (extractField obx 8)
      collectionTime := formatHL7Timestamp (extractField obx 14) })

/-- HL7Parser.extractOrderDetails (only called with an OBR present). -/
def extractOrderDetails (orc : Option HL7Segment) (obr : HL7Segment) : OrderDetails :=
  { orderId := match orc with | some o => extractField o 2 | none => ""
    orderType := extractComponent (extractField obr 4) 1
    orderDescription := extractComponent (extractField obr 4) 1
    status := match orc with | some o => extractField o 5 | none => ""
    priority := extractField obr 27 }

/-- HL7Parser.buildSubject. -/
def buildSubject (messageType : String) (obr : Option HL7Segment) : String :=
  let testName :=
    match obr with
    | some obr => extractComponent (extractField obr 4) 1
    | none => ""
  if messageType = "ORU^R01" then "Lab Result: " ++ testName
  else if messageType = "ORM^O01" then "Lab Order Request: " ++ testName
  else if messageType = "SIU^S12" then "Scheduling Request: " ++ testName
  else if messageType = "RDE^O11" then "Medication Order: " ++ testName
  else if messageType = "REF^I12" then "Referral: " ++ testName
  else "Clinical Message: " ++ messageType

/-- HL7Parser.buildParsedMessage. -/
def buildParsedMessage (segments : List HL7Segment) (messageType : String) (raw : String)
    (nowMs : Nat) (nowIso : String) : ParsedMedicalMessage :=
  let msh := segments.find? (fun s => s.id = "MSH")
  let pid := segments.find? (fun s => s.id = "PID")
  let orc := segments.find? (fun s => s.id = "ORC")
  let obr := segments.find? (fun s => s.id = "OBR")
  let obxSegments := segments.filter (fun s => s.id = "OBX")
  { messageId :=
      match msh with
      | some m => extractField m 9
      | none => "MSG-" ++ toString nowMs
    timestamp :=
      match msh with
      | some m => formatHL7Timestamp (extractField m 6)
      | none => nowIso
    messageType := classifyMessageType messageType
    patient := extractPatient pid
    provider := extractProvider orc
    content :=
      { subject := buildSubject messageType obr
        body := raw
        urgency := determineUrgency obr obxSegments
        labResults := some (extractLabResults obxSegments)
        orderDetails :=
          match obr with
          | some obr => some (extractOrderDetails orc obr)
          | none => none
        schedulingInfo := none }
    epicDeepLink := none }

/-- HL7Parser.parse. -/
def parse (raw : String) (nowMs : Nat) (nowIso : String) : HL7Message :=
  let segments := segmentsOf raw
  let msh := segments.find? (fun s => s.id = "MSH")
  let messageType :=
    match msh with
    | some m => extractField m 8
    | none => "UNKNOWN"
  { raw := raw
    messageType := messageType
    segments := segments
    parsed := buildParsedMessage segments messageType raw nowMs nowIso }

end HL7Parser

/-! ## Structured-resource parser (class FHIRParser, src/fhir/parser.ts)

Only the resource fields actually read by the parser are modelled.
FHIR decimal quantities are modelled by their decimal string rendering,
since the parser only ever converts them to strings. -/

structure FHIRCoding where
  code : Option String
  display : Option String
deriving DecidableEq, Repr

/-- A codeable concept: coding list plus free text (also used for the
interpretation, reasonCode and category element shapes). -/
structure FHIRConcept where
  coding : Option (List FHIRCoding)
  text : Option String
deriving DecidableEq, Repr

structure FHIRRef where
  reference : Option String
  display : Option String
deriving DecidableEq, Repr

structure FHIRQuantity where
  value : Option String
  unit : Option String
deriving DecidableEq, Repr

structure FHIRRange where
  low : Option FHIRQuantity
  high : Option FHIRQuantity
  text : Option String
deriving DecidableEq, Repr

structure FHIRNote where
  text : Option String
deriving DecidableEq, Repr

structure FHIRPayloadItem where
  contentString : Option String
deriving DecidableEq, Repr

structure FHIRDosage where
  text : Option String
deriving DecidableEq, Repr

structure FHIRDiagnosticReport where
  id : Option String
  status : String
  code : Option FHIRConcept
  subject : Option FHIRRef
  effectiveDateTime : Option String
  issued : Option String
  performer : Option (List FHIRRef)
  result : Option (List FHIRRef)
  conclusion : Option String
deriving DecidableEq, Repr

structure FHIRObservation where
  id : Option String
  status : String
  code : Option FHIRConcept
  subject : Option FHIRRef
  effectiveDateTime : Option String
  valueQuantity : Option FHIRQuantity
  valueString : Option String
  referenceRange : Option (List FHIRRange)
  interpretation : Option (List FHIRConcept)
deriving DecidableEq, Repr

structure FHIRServiceRequest where
  id : Option String
  status : String
  priority : Option String
  category : Option (List FHIRConcept)
  code : Option FHIRConcept
  subject : Option FHIRRef
  requester : Option FHIRRef
  occurrenceDateTime : Option String
  reasonCode : Option (List FHIRConcept)
  note : Option (List FHIRNote)
deriving DecidableEq, Repr

structure FHIRMedicationRequest where
  id : Option String
  status : String
  priority : Option String
  medicationCodeableConcept : Option FHIRConcept
  medicationReference : Option FHIRRef
  subject : Option FHIRRef
  requester : Option FHIRRef
  dosageInstruction : Option (List FHIRDosage)
deriving DecidableEq, Repr

structure FHIRCommunication where
  id : Option String
  status : String
  priority : Option String
  category : Option (List FHIRConcept)
  subject : Option FHIRRef
  sender : Option FHIRRef
  payload : Option (List FHIRPayloadItem)
  sent : Option String
deriving DecidableEq, Repr

/-- The FHIRResource union, as a closed tagged variant. The other
constructor covers Patient, Encounter, unknown and missing resource types,
which the dispatch switch sends to its default (null) branch. -/
inductive FHIRResource where
  | diagnosticReport (r : FHIRDiagnosticReport)
  | observation (o : FHIRObservation)
  | serviceRequest (r : FHIRServiceRequest)
  | medicationRequest (r : FHIRMedicationRequest)
  | communication (c : FHIRCommunication)
  | other (resourceType : Option String)
deriving DecidableEq, Repr

structure FHIRBundleEntry where
  resource : FHIRResource
deriving DecidableEq, Repr

structure FHIRBundle where
  type : String
  entry : Option (List FHIRBundleEntry)
deriving DecidableEq, Repr

namespace FHIRParser

/-- FHIRParser.extractPatientFromReference. -/
def extractPatientFromReference (ref : Option FHIRRef) : PatientInfo :=
  match ref with
  | none => { mrn := "UNKNOWN", firstName := "Unknown", lastName := "Patient"
              dob := "", sex := "", epicPatientId := "" }
  | some ref =>
    let patientId :=
      match ref.reference with
      | some r => JsStr.removeFirst r "Patient/"
      | none => ""
    let parts := (JsStr.splitChar (ref.display.getD "Unknown Patient")
      (fun c => c.isWhitespace || c = ',')).filter (fun s => s ≠ "")
    { mrn := patientId
      firstName :=
        match parts.getD 1 "", parts.getD 0 "" with
        | "", "" => "Unknown"
        | "", p0 => p0
        | p1, _ => p1
      lastName := if parts.getD 0 "" = "" then "Patient" else parts.getD 0 ""
      dob := ""
      sex := ""
      epicPatientId := patientId }

/-- FHIRParser.extractProviderFromReference. -/
def extractProviderFromReference (ref : Option FHIRRef) : ProviderInfo :=
  match ref with
  | none => { npi := "", name := "Unknown Provider", role := "Unknown" }
  | some ref =>
    { npi :=
        match ref.reference with
        | some r => JsStr.removeFirst r "Practitioner/"
        | none => ""
      name := ref.display.getD "Unknown Provider"
      role := "Ordering Provider" }

/-- FHIRParser.formatReferenceRange. -/
def formatReferenceRange (range : Option FHIRRange) : String :=
  match range with
  | none => ""
  | some range =>
    match range.text with
    | some t => t
    | none =>
      let low := (range.low.bind (fun q => q.value)).getD ""
      let high := (range.high.bind (fun q => q.value)).getD ""
      let unit := ((range.low.bind (fun q => q.unit)).orElse
        (fun _ => range.high.bind (fun q => q.unit))).getD ""
      if low ≠ "" ∧ high ≠ "" then JsStr.trim (low ++ "-" ++ high ++ " " ++ unit)
      else if low ≠ "" then JsStr.trim (">= " ++ low ++ " " ++ unit)
      else if high ≠ "" then JsStr.trim ("<= " ++ high ++ " " ++ unit)
      else ""

/-- FHIRParser.interpretFlag: maps the first interpretation coding onto the
three-tier flag scale; a missing or empty coding list yields the empty flag. -/
def interpretFlag (interp : Option FHIRConcept) : String :=
  match interp with
  | none => ""
  | some concept =>
    match concept.coding with
    | none => ""
    | some [] => ""
    | some (cd :: _) =>
      let code := JsStr.upper (cd.code.getD "")
      if code = "N" ∨ code = "NORMAL" then "normal"
      else if code = "H" ∨ code = "L" ∨ code = "A" ∨ code = "HU" ∨ code = "LU"
          ∨ code = "ABNORMAL" then "abnormal"
      else if code = "HH" ∨ code = "LL" ∨ code = "AA" ∨ code = "CRITICAL"
          ∨ code = "CC" then "critical"
      else ""

/-- FHIRParser.mapPriority. -/
def mapPriority (priority : Option String) : String :=
  match priority with
  | none => "routine"
  | some p =>
    let lower := JsStr.lower p
    if lower = "stat" then "stat"
    else if lower = "asap" ∨ lower = "urgent" then "urgent"
    else "routine"

/-- FHIRParser.parseDiagnosticReport. -/
def parseDiagnosticReport (report : FHIRDiagnosticReport) (nowMs : Nat) (nowIso : String) :
    ParsedMedicalMessage :=
  let testName :=
    ((report.code.bind (fun c => c.text)).orElse
      (fun _ => (report.code.bind (fun c => c.coding)).bind
        (fun l => l.head?.bind (fun cd => cd.display)))).getD "Unknown Test"
  let labResults : List LabResult :=
    (report.result.getD []).map (fun ref =>
      { testName := ref.display.getD "Unknown"
        testCode := "", value := "", units := "", referenceRange := ""
        flag := ""
        collectionTime := report.effectiveDateTime.getD "" })
  { messageId := report.id.getD ("FHIR-DR-" ++ toString nowMs)
    timestamp := (report.issued.orElse (fun _ => report.effectiveDateTime)).getD nowIso
    messageType := "LAB_RESULT"
    patient := extractPatientFromReference report.subject
    provider := extractProviderFromReference (report.performer.bind (fun l => l.head?))
    content :=
      { subject := "Lab Result: " ++ testName
        body := report.conclusion.getD ("FHIR DiagnosticReport for " ++ testName)
        urgency := "routine"
        labResults := if labResults.length ≠ 0 then some labResults else none
        orderDetails := none
        schedulingInfo := none }
    epicDeepLink := none }

/-- FHIRParser.parseObservation. -/
def parseObservation (obs : FHIRObservation) (nowMs : Nat) (nowIso : String) :
    ParsedMedicalMessage :=
  let testName :=
    ((obs.code.bind (fun c => c.text)).orElse
      (fun _ => (obs.code.bind (fun c => c.coding)).bind
        (fun l => l.head?.bind (fun cd => cd.display)))).getD "Unknown Test"
  let testCode :=
    ((obs.code.bind (fun c => c.coding)).bind (fun l => l.head?.bind (fun cd => cd.code))).getD ""
  let value :=
    ((obs.valueQuantity.bind (fun q => q.value)).orElse (fun _ => obs.valueString)).getD ""
  let units := (obs.valueQuantity.bind (fun q => q.unit)).getD ""
  let refRange := formatReferenceRange (obs.referenceRange.bind (fun l => l.head?))
  let flag := interpretFlag (obs.interpretation.bind (fun l => l.head?))
  let labResult : LabResult :=
    { testName := testName, testCode := testCode, value := value, units := units
      referenceRange := refRange, flag := flag
      collectionTime := obs.effectiveDateTime.getD "" }
  { messageId := obs.id.getD ("FHIR-OBS-" ++ toString nowMs)
    timestamp := obs.effectiveDateTime.getD nowIso
    messageType := "LAB_RESULT"
    patient := extractPatientFromReference obs.subject
    provider := { npi := "", name := "Unknown Provider", role := "Unknown" }
    content :=
      { subject := "Lab Result: " ++ testName
        body := testName ++ ": " ++ value ++ " " ++ units ++ " (ref: " ++ refRange ++ ") ["
          ++ (if flag = "" then "normal" else flag) ++ "]"
        urgency :=
          if flag = "critical" then "critical"
          else if flag = "abnormal" then "urgent"
          else "routine"
        labResults := some [labResult]
        orderDetails := none
        schedulingInfo := none }
    epicDeepLink := none }

/-- FHIRParser.parseServiceRequest. -/
def parseServiceRequest (req : FHIRServiceRequest) (nowMs : Nat) (nowIso : String) :
    ParsedMedicalMessage :=
  let studyName :=
    ((req.code.bind (fun c => c.text)).orElse
      (fun _ => (req.code.bind (fun c => c.coding)).bind
        (fun l => l.head?.bind (fun cd => cd.display)))).getD "Unknown Study"
  let isLab :=
    (req.category.getD []).any (fun c =>
      (c.coding.getD []).any (fun cd =>
        cd.code = some "108252007" ||
          (match cd.display with
           | some d => JsStr.includes (JsStr.lower d) "lab"
           | none => false)))
  let messageType := if isLab then "LAB_ORDER_REQUEST" else "SCHEDULE_STUDY"
  let schedulingInfo : Option SchedulingInfo :=
    if isLab then none
    else some
      { studyType := studyName
        preferredDate := req.occurrenceDateTime
        location := none
        instructions := req.note.map (fun l =>
          JsStr.join "; " (l.map (fun n => n.text.getD ""))) }
  let orderDetails : Option OrderDetails :=
    if isLab then some
      { orderId := req.id.getD ""
        orderType := "Lab Order"
        orderDescription := studyName
        status := req.status
        priority := req.priority.getD "routine" }
    else none
  { messageId := req.id.getD ("FHIR-SR-" ++ toString nowMs)
    timestamp := nowIso
    messageType := messageType
    patient := extractPatientFromReference req.subject
    provider := extractProviderFromReference req.requester
    content :=
      { subject := (if isLab then "Lab Order" else "Scheduling") ++ " Request: " ++ studyName
        body :=
          match req.reasonCode with
          | some l => JsStr.join "; " (l.map (fun r =>
              ((r.text).orElse (fun _ =>
                (r.coding.getD []).head?.bind (fun cd => cd.display))).getD ""))
          | none => studyName
        urgency := mapPriority req.priority
        labResults := none
        orderDetails := orderDetails
        schedulingInfo := schedulingInfo }
    epicDeepLink := none }

/-- FHIRParser.parseMedicationRequest. -/
def parseMedicationRequest (req : FHIRMedicationRequest) (nowMs : Nat) (nowIso : String) :
    ParsedMedicalMessage :=
  let medName :=
    (((req.medicationCodeableConcept.bind (fun c => c.text)).orElse
      (fun _ => (req.medicationCodeableConcept.bind (fun c => c.coding)).bind
        (fun l => l.head?.bind (fun cd => cd.display)))).orElse
      (fun _ => req.medicationReference.bind (fun r => r.display))).getD "Unknown Medication"
  let dose := ((req.dosageInstruction.bind (fun l => l.head?)).bind (fun d => d.text)).getD ""
  { messageId := req.id.getD ("FHIR-MR-" ++ toString nowMs)
    timestamp := nowIso
    messageType := "MEDICATION_REFILL"
    patient := extractPatientFromReference req.subject
    provider := extractProviderFromReference req.requester
    content :=
      { subject := "Medication Request: " ++ medName
        body := medName ++ " - " ++ dose
        urgency := mapPriority req.priority
        labResults := none
        orderDetails := some
          { orderId := req.id.getD ""
            orderType := "Medication"
            orderDescription := medName ++ " " ++ dose
            status := req.status
            priority := req.priority.getD "routine" }
        schedulingInfo := none }
    epicDeepLink := none }

/-- FHIRParser.parseCommunication. -/
def parseCommunication (comm : FHIRCommunication) (nowMs : Nat) (nowIso : String) :
    ParsedMedicalMessage :=
  let body :=
    match comm.payload with
    | some l => JsStr.join "\n"
        ((l.filterMap (fun p => p.contentString)).filter (fun s => s ≠ ""))
    | none => ""
  let category :=
    (((comm.category.getD []).head?.bind (fun c => c.coding)).bind
      (fun l => l.head?.bind (fun cd => cd.display))).getD "Clinical Message"
  let isFollowUp := JsStr.includes (JsStr.lower category) "follow"
    || JsStr.includes (JsStr.lower body) "follow-up"
  let isCall := JsStr.includes (JsStr.lower category) "call"
    || JsStr.includes (JsStr.lower body) "call"
  let messageType :=
    if isCall then "CALL_OFFICE"
    else if isFollowUp then "FOLLOW_UP_NEEDED"
    else "GENERAL_NOTIFICATION"
  { messageId := comm.id.getD ("FHIR-COMM-" ++ toString nowMs)
    timestamp := comm.sent.getD nowIso
    messageType := messageType
    patient := extractPatientFromReference comm.subject
    provider := extractProviderFromReference comm.sender
    content :=
      { subject := category
        body := body
        urgency := mapPriority comm.priority
        labResults := none
        orderDetails := none
        schedulingInfo := none }
    epicDeepLink := none }

/-- FHIRParser.parseSingleResource: dispatch on the resource type; the default
branch of the switch returns null for any other or missing type. -/
def parseSingleResource (resource : FHIRResource) (nowMs : Nat) (nowIso : String) :
    Option ParsedMedicalMessage :=
  match resource with
  | .diagnosticReport r => some (parseDiagnosticReport r nowMs nowIso)
  | .observation o => some (parseObservation o nowMs nowIso)
  | .serviceRequest r => some (parseServiceRequest r nowMs nowIso)
  | .medicationRequest r => some (parseMedicationRequest r nowMs nowIso)
  | .communication c => some (parseCommunication c nowMs nowIso)
  | .other _ => none

/-- The accumulator loop body of FHIRParser.parseBundle: iterate the entries,
pushing each non-null parse result onto the results array. -/
def parseBundleLoop (nowMs : Nat) (nowIso : String) (acc : List ParsedMedicalMessage) :
    List FHIRBundleEntry → List ParsedMedicalMessage
  | [] => acc
  | e :: rest =>
    match parseSingleResource e.resource nowMs nowIso with
    | some p => parseBundleLoop nowMs nowIso (acc ++ [p]) rest
    | none => parseBundleLoop nowMs nowIso acc rest

/-- FHIRParser.parseBundle, including the early return on a missing or empty
entry list. -/
def parseBundle (bundle : FHIRBundle) (nowMs : Nat) (nowIso : String) :
    List ParsedMedicalMessage :=
  match bundle.entry with
  | none => []
  | some entries =>
    if entries.length = 0 then []
    else parseBundleLoop nowMs nowIso [] entries

/-- The input union accepted by FHIRParser.parse (the JSON-string variant is
decoded before reaching this logic and is not modelled). -/
inductive FHIRInput where
  | bundle (b : FHIRBundle)
  | single (r : FHIRResource)
deriving Repr

/-- FHIRParser.parse: a Bundle fans out; a single resource yields a
one-element or empty list. -/
def parse (input : FHIRInput) (nowMs : Nat) (nowIso : String) : List ParsedMedicalMessage :=
  match input with
  | .bundle b => parseBundle b nowMs nowIso
  | .single r =>
    match parseSingleResource r nowMs nowIso with
    | some p => [p]
    | none => []

/-- A resource type is supported when the dispatch switch has a case for it. -/
def isSupported : FHIRResource → Bool
  | .other _ => false
  | _ => true

end FHIRParser

/-! ## Ingestion gateway (class WorkatoWebhook, src/workato/webhook.ts)

JSON values are modelled by an inductive JVal; a parsed JSON object body is
its field list. JS truthiness, nullish coalescing and String() coercion are
modelled explicitly. -/

mutual

inductive JVal where
  | null
  | bool (b : Bool)
  | num (n : Int)
  | str (s : String)
  | arr (xs : JArr)
  | obj (fields : JObj)

inductive JArr where
  | nil
  | cons (head : JVal) (tail : JArr)

inductive JObj where
  | nil
  | cons (key : String) (value : JVal) (tail : JObj)

end

namespace WorkatoWebhook

/-- Property read on a JS object: the first binding for the key, or
undefined (none) when absent. -/
def getField : JObj → String → Option JVal
  | .nil, _ => none
  | .cons k v rest, key => if k = key then some v else getField rest key

/-- JS truthiness of a possibly-undefined value: undefined, null, false,
zero and the empty string are falsy; arrays and objects are truthy. -/
def truthy : Option JVal → Bool
  | none => false
  | some .null => false
  | some (.bool b) => b
  | some (.num n) => n ≠ 0
  | some (.str s) => s ≠ ""
  | some (.arr _) => true
  | some (.obj _) => true

/-- One step of the JS nullish-coalescing operator: undefined and null are
passed over. -/
def nn (o : Option JVal) : Option JVal :=
  match o with
  | some .null => none
  | x => x

mutual

/-- JS String() coercion of a defined value (array elements are joined with
commas, as JS Array toString does). -/
def jsToString : JVal → String
  | .null => "null"
  | .bool true => "true"
  | .bool false => "false"
  | .num n => toString n
  | .str s => s
  | .arr xs => JsStr.join "," (jsToStringArr xs)
  | .obj _ => "[object Object]"

def jsToStringArr : JArr → List String
  | .nil => []
  | .cons h t => jsToString h :: jsToStringArr t

end

/-- WorkatoWebhook.normalizeUrgency: the alternate-key independent
urgency-keyword mapping. -/
def normalizeUrgency (urgency : String) : String :=
  let lower := JsStr.lower urgency
  if lower = "critical" ∨ lower = "emergent" then "critical"
  else if lower = "stat" then "stat"
  else if lower = "urgent" ∨ lower = "asap" then "urgent"
  else "routine"

/-- WorkatoWebhook.normalizeMessageType: finite map with
GENERAL_NOTIFICATION default. -/
def normalizeMessageType (type : String) : String :=
  if type = "lab_result" ∨ type = "LAB_RESULT" ∨ type = "ORU" then "LAB_RESULT"
  else if type = "lab_order" ∨ type = "LAB_ORDER_REQUEST" ∨ type = "ORM" then "LAB_ORDER_REQUEST"
  else if type = "follow_up" ∨ type = "FOLLOW_UP_NEEDED" then "FOLLOW_UP_NEEDED"
  else if type = "schedule" ∨ type = "SCHEDULE_STUDY" ∨ type = "SIU" then "SCHEDULE_STUDY"
  else if type = "call" ∨ type = "CALL_OFFICE" then "CALL_OFFICE"
  else if type = "refill" ∨ type = "MEDICATION_REFILL" ∨ type = "RDE" then "MEDICATION_REFILL"
  else if type = "referral" ∨ type = "REFERRAL_REQUEST" then "REFERRAL_REQUEST"
  else if type = "critical" ∨ type = "CRITICAL_ALERT" then "CRITICAL_ALERT"
  else "GENERAL_NOTIFICATION"

/-- String() applied to a nullish-coalescing chain ending in a string
literal default. -/
def strWithDefault (o : Option JVal) (dflt : String) : String :=
  jsToString ((nn o).getD (.str dflt))

/-- WorkatoWebhook.normalizeWorkatoPayload: the alternate-key renaming
normalization mapping snake_case middleware fields onto the canonical
message. -/
def normalizeWorkatoPayload (data : JObj) (nowMs : Nat) (nowIso : String) :
    ParsedMedicalMessage :=
  { messageId := jsToString (((nn (getField data "message_id")).orElse
      (fun _ => nn (getField data "messageId"))).getD (.str ("WKT-" ++ toString nowMs)))
    timestamp := strWithDefault (getField data "timestamp") nowIso
    messageType := normalizeMessageType (jsToString (((nn (getField data "message_type")).orElse
      (fun _ => nn (getField data "messageType"))).getD (.str "GENERAL_NOTIFICATION")))
    patient :=
      { mrn := jsToString (((nn (getField data "patient_mrn")).orElse
          (fun _ => nn (getField data "patientMrn"))).getD (.str "UNKNOWN"))
        firstName := jsToString (((nn (getField data "patient_first_name")).orElse
          (fun _ => nn (getField data "patientFirstName"))).getD (.str "Unknown"))
        lastName := jsToString (((nn (getField data "patient_last_name")).orElse
          (fun _ => nn (getField data "patientLastName"))).getD (.str "Patient"))
        dob := jsToString (((nn (getField data "patient_dob")).orElse
          (fun _ => nn (getField data "patientDob"))).getD (.str ""))
        sex := jsToString (((nn (getField data "patient_sex")).orElse
          (fun _ => nn (getField data "patientSex"))).getD (.str ""))
        epicPatientId := jsToString ((((nn (getField data "epic_patient_id")).orElse
          (fun _ => nn (getField data "epicPatientId"))).orElse
          (fun _ => (nn (getField data "patient_mrn")).orElse
            (fun _ => nn (getField data "patientMrn"))))|>.getD (.str "")) }
    provider :=
      { npi := jsToString (((nn (getField data "provider_npi")).orElse
          (fun _ => nn (getField data "providerNpi"))).getD (.str ""))
        name := jsToString (((nn (getField data "provider_name")).orElse
          (fun _ => nn (getField data "providerName"))).getD (.str "Unknown Provider"))
        role := jsToString (((nn (getField data "provider_role")).orElse
          (fun _ => nn (getField data "providerRole"))).getD (.str "Unknown")) }
    content :=
      { subject := strWithDefault (getField data "subject") "Clinical Message"
        body := jsToString (((nn (getField data "body")).orElse
          (fun _ => nn (getField data "message"))).getD (.str ""))
        urgency := normalizeUrgency (jsToString (((nn (getField data "urgency")).orElse
          (fun _ => nn (getField data "priority"))).getD (.str "routine")))
        labResults := none
        orderDetails := none
        schedulingInfo := none }
    epicDeepLink := none }

/-- The routing decision taken by WorkatoWebhook.handleWorkatoDelivery after
JSON.parse succeeds on the body. -/
inductive Route where
  | fhir
  | hl7 (text : JVal)
  | passthrough
  | workatoNormalized
  | unrecognized

/-- The format-detection chain of WorkatoWebhook.handleWorkatoDelivery, in
source order: resource-type discriminator, embedded-HL7 aliases (unwrapped by
a nullish-coalescing chain), canonical passthrough shape, alternate-key
normalization, otherwise the unrecognized-format error throw. -/
def detectFormat (data : JObj) : Route :=
  if truthy (getField data "resourceType") then .fhir
  else if truthy (getField data "hl7_raw") || truthy (getField data "hl7Raw")
      || truthy (getField data "raw_hl7") then
    .hl7 (((nn (getField data "hl7_raw")).orElse
      (fun _ => (nn (getField data "hl7Raw")).orElse
        (fun _ => nn (getField data "raw_hl7")))).getD .null)
  else if truthy (getField data "messageId") && truthy (getField data "patient")
      && truthy (getField data "content") then .passthrough
  else if truthy (getField data "patient_mrn") || truthy (getField data "patientMrn") then
    .workatoNormalized
  else .unrecognized

/-- The webhook secret configured in the WorkatoWebhook constructor:
config.workato?.webhookSecret with an empty-string default. -/
def webhookSecretOf (configSecret : Option String) : String :=
  configSecret.getD ""

/-- The logical submission channels of the gateway. -/
inductive Channel where
  | workato
  | fhirChannel
  | hl7Channel
deriving DecidableEq, Repr

/-- The observable outcome of WorkatoWebhook.handleRequest, up to the point
where a delivery handler is entered. A dispatched outcome means the request
passed the method and auth gates, its body was read, and control reached the
per-channel handler (and hence format detection for the workato channel). -/
inductive GatewayOutcome where
  | healthOk
  | methodNotAllowed
  | unauthorized
  | notFound
  | dispatched (channel : Channel)
deriving DecidableEq, Repr

/-- WorkatoWebhook.handleRequest: health check, method gate, bearer-secret
gate (skipped entirely when the configured secret is empty, per the JS
truthiness test on this.webhookSecret), then URL dispatch. The body is read
only after the auth gate, so the outcome is independent of it. -/
def handleRequest (secret method url authHeader : String) : GatewayOutcome :=
  if url = "/webhook/health" ∧ method = "GET" then .healthOk
  else if method ≠ "POST" then .methodNotAllowed
  else if secret ≠ "" ∧ JsStr.removeFirst authHeader "Bearer " ≠ secret then .unauthorized
  else if url = "/webhook/workato" then .dispatched .workato
  else if url = "/webhook/fhir" then .dispatched .fhirChannel
  else if url = "/webhook/hl7" then .dispatched .hl7Channel
  else .notFound

end WorkatoWebhook

/-! ## Spec-side definition for the timestamp refinement claim -/

/-- Modelled from the spec: timestamps in the compact numeric form
(year, month, day, hour, minute, second concatenated) are reformatted to
ISO-8601, with truncated timestamps zero-padded rather than rejected.
Stated independently of the code: right-pad the compact form with zeros to
the full 14 characters, then insert the ISO separators between the fixed
component positions. -/
def isoOfCompact (ts : String) : String :=
  let padded : String := ⟨ts.data ++ List.replicate (14 - ts.length) '0'⟩
  HL7Parser.strSlice padded 0 4 ++ "-" ++ HL7Parser.strSlice padded 4 6 ++ "-"
    ++ HL7Parser.strSlice padded 6 8 ++ "T" ++ HL7Parser.strSlice padded 8 10 ++ ":"
    ++ HL7Parser.strSlice padded 10 12 ++ ":" ++ HL7Parser.strSlice padded 12 14

/-- FHIRParser.interpretFlag specialized to an interpretation element that
carries a single coding with the given code, as used to compare the two flag
mappers on a common code string. -/
def FHIRParser.interpretFlagAtCode (c : String) : String :=
  FHIRParser.interpretFlag (some { coding := some [{ code := some c, display := none }], text := none })

/-! ## Theorems -/

/-- C5 counterexample: the claim that the two flag mappers agree on every
code string fails at the code C: the segmented-record normalizer maps C to
critical, while the structured-resource interpretation mapper maps C to the
empty (unknown) flag. -/
theorem C5_counterexample :
    HL7Parser.normalizeFlag "C" = "critical" ∧
    FHIRParser.interpretFlagAtCode "C" = "" ∧
    HL7Parser.normalizeFlag "C" ≠ FHIRParser.interpretFlagAtCode "C" := by
  decide

/-- Case analysis shared by the C5 theorem: the two if-chains on an
uppercased code agree exactly outside the divergence set. -/
theorem flag_chain_cases (u : String) :
    ((if u = "H" ∨ u = "L" ∨ u = "A" then "abnormal"
        else if u = "HH" ∨ u = "LL" ∨ u = "AA" ∨ u = "C" then "critical"
        else if u = "N" ∨ u = "" then "normal" else "") =
      (if u = "N" ∨ u = "NORMAL" then "normal"
        else if u = "H" ∨ u = "L" ∨ u = "A" ∨ u = "HU" ∨ u = "LU" ∨ u = "ABNORMAL" then "abnormal"
        else if u = "HH" ∨ u = "LL" ∨ u = "AA" ∨ u = "CRITICAL" ∨ u = "CC" then "critical"
        else "")) ↔
      ¬(u = "" ∨ u = "C" ∨ u = "CC" ∨ u = "HU" ∨ u = "LU" ∨ u = "NORMAL"
        ∨ u = "ABNORMAL" ∨ u = "CRITICAL") := by
  by_cases hmem : u = "" ∨ u = "C" ∨ u = "CC" ∨ u = "HU" ∨ u = "LU" ∨ u = "NORMAL"
      ∨ u = "ABNORMAL" ∨ u = "CRITICAL"
  · rcases hmem with h | h | h | h | h | h | h | h <;> subst h <;> decide
  · push_neg at hmem
    obtain ⟨h1, h2, h3, h4, h5, h6, h7, h8⟩ := hmem
    by_cases hc1 : u = "H"
    · subst hc1; decide
    by_cases hc2 : u = "L"
    · subst hc2; decide
    by_cases hc3 : u = "A"
    · subst hc3; decide
    by_cases hc4 : u = "HH"
    · subst hc4; decide
    by_cases hc5 : u = "LL"
    · subst hc5; decide
    by_cases hc6 : u = "AA"
    · subst hc6; decide
    by_cases hc7 : u = "N"
    · subst hc7; decide
    refine iff_of_true ?_ (by tauto)
    rw [if_neg (by tauto), if_neg (by tauto), if_neg (by tauto), if_neg (by tauto),
      if_neg (by tauto), if_neg (by tauto)]

/-- C5 (amended): the two flag mappers agree on a code string exactly when
its uppercase form lies outside the divergence set: the segmented normalizer
alone maps C to critical and the blank code to normal, while the
interpretation mapper alone recognizes CC, HU, LU, NORMAL, ABNORMAL and
CRITICAL. -/
theorem C5_flag_mappers_agree_iff (c : String) :
    HL7Parser.normalizeFlag c = FHIRParser.interpretFlagAtCode c ↔
      JsStr.upper c ∉ ["", "C", "CC", "HU", "LU", "NORMAL", "ABNORMAL", "CRITICAL"] := by
  unfold HL7Parser.normalizeFlag FHIRParser.interpretFlagAtCode FHIRParser.interpretFlag
  simp only [Option.getD_some, List.mem_cons, List.not_mem_nil, or_false]
  exact flag_chain_cases (JsStr.upper c)

/-- C5 amended-claim witness at the concrete code hh, on which both mappers
agree (case-insensitively) with value critical. -/
theorem C5_flag_mappers_agree_iff_witness :
    HL7Parser.normalizeFlag "hh" = FHIRParser.interpretFlagAtCode "hh" :=
  (C5_flag_mappers_agree_iff "hh").mpr (by decide)

/-- C6 counterexample: the claim that an unrecognized code yields the flag
value unknown fails at the code XX: the normalizer yields the empty string,
which is not a member of the claimed value set including the literal
unknown. -/
theorem C6_counterexample :
    HL7Parser.normalizeFlag "XX" = "" ∧
    HL7Parser.normalizeFlag "XX" ∉ (["normal", "abnormal", "critical", "unknown"] : List String) := by
  decide

/-- C6 (amended): for every abnormal-flag code string the normalized flag is
a member of the set containing normal, abnormal, critical and the empty
string (the empty string being the unknown marker): recognized high, low and
abnormal codes yield abnormal; high-high, low-low, double-abnormal and
critical codes yield critical; blank or a normal indicator yields normal;
any other code yields the empty-string flag. The structured-resource
interpretation mapper also only produces values in the same set. -/
theorem C6_flag_range (c : String) (interp : Option FHIRConcept) :
    (HL7Parser.normalizeFlag c ∈ (["normal", "abnormal", "critical", ""] : List String)) ∧
    ((JsStr.upper c = "H" ∨ JsStr.upper c = "L" ∨ JsStr.upper c = "A") →
      HL7Parser.normalizeFlag c = "abnormal") ∧
    ((JsStr.upper c = "HH" ∨ JsStr.upper c = "LL" ∨ JsStr.upper c = "AA"
        ∨ JsStr.upper c = "C") → HL7Parser.normalizeFlag c = "critical") ∧
    ((JsStr.upper c = "N" ∨ JsStr.upper c = "") → HL7Parser.normalizeFlag c = "normal") ∧
    (¬(JsStr.upper c = "H" ∨ JsStr.upper c = "L" ∨ JsStr.upper c = "A"
        ∨ JsStr.upper c = "HH" ∨ JsStr.upper c = "LL" ∨ JsStr.upper c = "AA"
        ∨ JsStr.upper c = "C" ∨ JsStr.upper c = "N" ∨ JsStr.upper c = "") →
      HL7Parser.normalizeFlag c = "") ∧
    (FHIRParser.interpretFlag interp ∈ (["normal", "abnormal", "critical", ""] : List String)) := by
  refine ⟨?_, ?_, ?_, ?_, ?_, ?_⟩
  · simp only [HL7Parser.normalizeFlag]
    split_ifs <;> decide
  · intro h
    simp only [HL7Parser.normalizeFlag]
    rcases h with h | h | h <;> simp only [h] <;> decide
  · intro h
    simp only [HL7Parser.normalizeFlag]
    rcases h with h | h | h | h <;> simp only [h] <;> decide
  · intro h
    simp only [HL7Parser.normalizeFlag]
    rcases h with h | h <;> simp only [h] <;> decide
  · intro h
    push_neg at h
    obtain ⟨h1, h2, h3, h4, h5, h6, h7, h8, h9⟩ := h
    simp only [HL7Parser.normalizeFlag]
    rw [if_neg (by tauto), if_neg (by tauto), if_neg (by tauto)]
  · rcases interp with _ | cpt
    · simp only [FHIRParser.interpretFlag]
      decide
    · rcases hc : cpt.coding with _ | cl
      · simp only [FHIRParser.interpretFlag, hc]
        decide
      · rcases cl with _ | ⟨cd, rest⟩
        · simp only [FHIRParser.interpretFlag, hc]
          decide
        · simp only [FHIRParser.interpretFlag, hc]
          split_ifs <;> decide

/-- C6 amended-claim witness: concrete codes exercising each tier, derived
by applying the amended theorem and discharging its hypotheses. -/
theorem C6_flag_range_witness :
    HL7Parser.normalizeFlag "hh" = "critical" ∧ HL7Parser.normalizeFlag "n" = "normal" ∧
    HL7Parser.normalizeFlag "l" = "abnormal" ∧ HL7Parser.normalizeFlag "XX" = "" :=
  ⟨(C6_flag_range "hh" none).2.2.1 (by decide),
   (C6_flag_range "n" none).2.2.2.1 (by decide),
   (C6_flag_range "l" none).2.1 (by decide),
   (C6_flag_range "XX" none).2.2.2.2.1 (by decide)⟩

/-- Helper: the normalizer chain yields critical exactly on the four
critical codes. -/
theorem crit_chain_iff (u : String) :
    ((if u = "H" ∨ u = "L" ∨ u = "A" then "abnormal"
      else if u = "HH" ∨ u = "LL" ∨ u = "AA" ∨ u = "C" then "critical"
      else if u = "N" ∨ u = "" then "normal" else "") = "critical") ↔
      (u = "HH" ∨ u = "LL" ∨ u = "AA" ∨ u = "C") := by
  constructor
  · intro h
    split_ifs at h with h1 h2 h3
    · exact absurd h (by decide)
    · exact h2
    · exact absurd h (by decide)
    · exact absurd h (by decide)
  · intro h
    rcases h with h | h | h | h <;> subst h <;> decide

/-- Helper: an OBX segment yields a critical normalized flag exactly when
determineUrgency's critical-code test accepts it. -/
theorem normalizeFlag_critical_iff (obx : HL7Segment) :
    HL7Parser.normalizeFlag (HL7Parser.extractField obx 8) = "critical" ↔
      HL7Parser.obxHasCriticalFlag obx = true := by
  simp only [HL7Parser.normalizeFlag, HL7Parser.obxHasCriticalFlag, decide_eq_true_eq]
  exact crit_chain_iff (JsStr.upper (HL7Parser.extractField obx 8))

/-- Helper: any critical OBX in the list forces determineUrgency to
critical, whatever the OBR priority. -/
theorem determineUrgency_critical (obr : Option HL7Segment) (obxs : List HL7Segment)
    (obx : HL7Segment) (hmem : obx ∈ obxs) (hcrit : HL7Parser.obxHasCriticalFlag obx = true) :
    HL7Parser.determineUrgency obr obxs = "critical" := by
  simp only [HL7Parser.determineUrgency]
  rw [if_pos (List.any_eq_true.mpr ⟨obx, hmem, hcrit⟩)]

/-- C1: in every canonical message produced by either parser, a lab result
with the critical flag forces message urgency critical; and in the
segmented-record parser, the urgency classifier returns critical whenever
any observation segment carries a critical abnormal-flag code, regardless of
the header (OBR) priority field. -/
theorem C1_critical_flag_forces_critical_urgency :
    (∀ (raw : String) (nowMs : Nat) (nowIso : String) (lr : LabResult),
        lr ∈ ((HL7Parser.parse raw nowMs nowIso).parsed.content.labResults.getD []) →
        lr.flag = "critical" →
        (HL7Parser.parse raw nowMs nowIso).parsed.content.urgency = "critical") ∧
    (∀ (r : FHIRResource) (nowMs : Nat) (nowIso : String) (msg : ParsedMedicalMessage),
        FHIRParser.parseSingleResource r nowMs nowIso = some msg →
        ∀ lr ∈ msg.content.labResults.getD [], lr.flag = "critical" →
        msg.content.urgency = "critical") ∧
    (∀ (obr : Option HL7Segment) (obxs : List HL7Segment) (obx : HL7Segment),
        obx ∈ obxs →
        HL7Parser.normalizeFlag (HL7Parser.extractField obx 8) = "critical" →
        HL7Parser.determineUrgency obr obxs = "critical") := by
  refine ⟨?_, ?_, ?_⟩
  · intro raw nowMs nowIso lr hmem hflag
    simp only [HL7Parser.parse, HL7Parser.buildParsedMessage, Option.getD_some] at hmem ⊢
    simp only [HL7Parser.extractLabResults, List.mem_map] at hmem
    obtain ⟨obx, hobx, rfl⟩ := hmem
    simp only at hflag
    have hobxmem := List.mem_filter.mp hobx
    exact determineUrgency_critical _ _ obx hobx ((normalizeFlag_critical_iff obx).mp hflag)
  · intro r nowMs nowIso msg hmsg lr hmem hflag
    cases r with
    | diagnosticReport dr =>
      simp only [FHIRParser.parseSingleResource, Option.some.injEq] at hmsg
      subst hmsg
      simp only [FHIRParser.parseDiagnosticReport] at hmem
      split at hmem
      · rw [Option.getD_some] at hmem
        simp only [List.mem_map] at hmem
        obtain ⟨ref, _, rfl⟩ := hmem
        change ("" : String) = "critical" at hflag
        exact absurd hflag (by decide)
      · simp only [Option.getD_none, List.not_mem_nil] at hmem
    | observation obs =>
      simp only [FHIRParser.parseSingleResource, Option.some.injEq] at hmsg
      subst hmsg
      simp only [FHIRParser.parseObservation, Option.getD_some, List.mem_singleton] at hmem
      subst hmem
      simp only at hflag
      simp only [FHIRParser.parseObservation]
      rw [if_pos hflag]
    | serviceRequest sr =>
      simp only [FHIRParser.parseSingleResource, Option.some.injEq] at hmsg
      subst hmsg
      simp only [FHIRParser.parseServiceRequest, Option.getD_none, List.not_mem_nil] at hmem
    | medicationRequest mr =>
      simp only [FHIRParser.parseSingleResource, Option.some.injEq] at hmsg
      subst hmsg
      simp only [FHIRParser.parseMedicationRequest, Option.getD_none, List.not_mem_nil] at hmem
    | communication cm =>
      simp only [FHIRParser.parseSingleResource, Option.some.injEq] at hmsg
      subst hmsg
      simp only [FHIRParser.parseCommunication, Option.getD_none, List.not_mem_nil] at hmem
    | other rt =>
      simp only [FHIRParser.parseSingleResource] at hmsg
      exact Option.noConfusion hmsg
  · intro obr obxs obx hmem hflag
    exact determineUrgency_critical obr obxs obx hmem ((normalizeFlag_critical_iff obx).mp hflag)

/-- C1 witness: a concrete segmented record with a single HH-flagged OBX is
classified critical by the full parser, and the urgency classifier returns
critical even when an OBR segment carries the stat priority code. -/
theorem C1_critical_flag_forces_critical_urgency_witness :
    (HL7Parser.parse "OBX|1|NM|K||7.1|||HH" 0 "T").parsed.content.urgency = "critical" ∧
    HL7Parser.determineUrgency
      (some (HL7Parser.parseSegment "OBR|1|||||||||||||||||||||||||||S"))
      [HL7Parser.parseSegment "OBX|1|NM|K||7.1|||HH"] = "critical" :=
  ⟨C1_critical_flag_forces_critical_urgency.1 "OBX|1|NM|K||7.1|||HH" 0 "T"
      ⟨"K", "K", "7.1", "", "", "critical", ""⟩ (by decide) (by decide),
   C1_critical_flag_forces_critical_urgency.2.2
      (some (HL7Parser.parseSegment "OBR|1|||||||||||||||||||||||||||S"))
      [HL7Parser.parseSegment "OBX|1|NM|K||7.1|||HH"]
      (HL7Parser.parseSegment "OBX|1|NM|K||7.1|||HH") (by decide) (by decide)⟩

/-- C2: a structured-resource Observation whose first interpretation coding
code is case-insensitively HH, LL or CC parses to a critical lab-result flag
and critical message urgency; codes H, L or A yield the abnormal flag and
urgent (never critical) urgency. -/
theorem C2_observation_interpretation_codes
    (obs : FHIRObservation) (nowMs : Nat) (nowIso : String)
    (i : FHIRConcept) (is : List FHIRConcept) (cd : FHIRCoding) (cds : List FHIRCoding)
    (c : String)
    (hI : obs.interpretation = some (i :: is))
    (hC : i.coding = some (cd :: cds))
    (hcode : cd.code = some c) :
    ((JsStr.upper c = "HH" ∨ JsStr.upper c = "LL" ∨ JsStr.upper c = "CC") →
      (∃ lr, (FHIRParser.parseObservation obs nowMs nowIso).content.labResults = some [lr] ∧
        lr.flag = "critical") ∧
      (FHIRParser.parseObservation obs nowMs nowIso).content.urgency = "critical") ∧
    ((JsStr.upper c = "H" ∨ JsStr.upper c = "L" ∨ JsStr.upper c = "A") →
      (∃ lr, (FHIRParser.parseObservation obs nowMs nowIso).content.labResults = some [lr] ∧
        lr.flag = "abnormal") ∧
      (FHIRParser.parseObservation obs nowMs nowIso).content.urgency = "urgent") := by
  have hflag : FHIRParser.interpretFlag (obs.interpretation.bind (fun l => l.head?)) =
      (if JsStr.upper c = "N" ∨ JsStr.upper c = "NORMAL" then "normal"
       else if JsStr.upper c = "H" ∨ JsStr.upper c = "L" ∨ JsStr.upper c = "A"
          ∨ JsStr.upper c = "HU" ∨ JsStr.upper c = "LU" ∨ JsStr.upper c = "ABNORMAL" then
         "abnormal"
       else if JsStr.upper c = "HH" ∨ JsStr.upper c = "LL" ∨ JsStr.upper c = "AA"
          ∨ JsStr.upper c = "CRITICAL" ∨ JsStr.upper c = "CC" then "critical"
       else "") := by
    rw [hI]
    simp only [Option.some_bind, List.head?_cons, FHIRParser.interpretFlag, hC, hcode,
      Option.getD_some]
  constructor
  · intro hu
    have hcrit : FHIRParser.interpretFlag (obs.interpretation.bind (fun l => l.head?)) =
        "critical" := by
      rw [hflag]
      rcases hu with h | h | h <;> simp only [h] <;> decide
    refine ⟨?_, ?_⟩
    · simp only [FHIRParser.parseObservation]
      exact ⟨_, rfl, hcrit⟩
    · simp only [FHIRParser.parseObservation]
      rw [if_pos hcrit]
  · intro hu
    have habn : FHIRParser.interpretFlag (obs.interpretation.bind (fun l => l.head?)) =
        "abnormal" := by
      rw [hflag]
      rcases hu with h | h | h <;> simp only [h] <;> decide
    have hncrit : ¬(FHIRParser.interpretFlag (obs.interpretation.bind (fun l => l.head?)) =
        "critical") := by
      rw [habn]
      decide
    refine ⟨?_, ?_⟩
    · simp only [FHIRParser.parseObservation]
      exact ⟨_, rfl, habn⟩
    · simp only [FHIRParser.parseObservation]
      rw [if_neg hncrit, if_pos habn]

/-- C2 witness: a concrete observation with interpretation code hh parses to
critical urgency, and one with code l parses to urgent urgency. -/
theorem C2_observation_interpretation_codes_witness :
    (FHIRParser.parseObservation
      ⟨none, "final", none, none, none, none, none, none,
        some [⟨some [⟨some "hh", none⟩], none⟩]⟩ 0 "T").content.urgency = "critical" ∧
    (FHIRParser.parseObservation
      ⟨none, "final", none, none, none, none, none, none,
        some [⟨some [⟨some "l", none⟩], none⟩]⟩ 0 "T").content.urgency = "urgent" :=
  ⟨((C2_observation_interpretation_codes _ 0 "T"
      ⟨some [⟨some "hh", none⟩], none⟩ [] ⟨some "hh", none⟩ [] "hh" rfl rfl rfl).1
      (by decide)).2,
   ((C2_observation_interpretation_codes _ 0 "T"
      ⟨some [⟨some "l", none⟩], none⟩ [] ⟨some "l", none⟩ [] "l" rfl rfl rfl).2
      (by decide)).2⟩

/-- C3: the segmented-record parser is a total function; when no
patient-identification segment is present the patient is the sentinel record
with mrn UNKNOWN, and when no header segment is present a generated
messageId and the processing-time timestamp are substituted. The empty
string produces no segments, so both substitutions apply to it. -/
theorem C3_hl7_parser_graceful_degradation (raw : String) (nowMs : Nat) (nowIso : String) :
    (((HL7Parser.segmentsOf raw).find? (fun s => s.id = "PID") = none) →
      (HL7Parser.parse raw nowMs nowIso).parsed.patient = HL7Parser.sentinelPatient) ∧
    (((HL7Parser.segmentsOf raw).find? (fun s => s.id = "MSH") = none) →
      (HL7Parser.parse raw nowMs nowIso).parsed.messageId = "MSG-" ++ toString nowMs ∧
      (HL7Parser.parse raw nowMs nowIso).parsed.timestamp = nowIso) ∧
    HL7Parser.segmentsOf "" = [] := by
  refine ⟨?_, ?_, by decide⟩
  · intro hpid
    simp only [HL7Parser.parse, HL7Parser.buildParsedMessage]
    rw [hpid]
    rfl
  · intro hmsh
    constructor <;>
      · simp only [HL7Parser.parse, HL7Parser.buildParsedMessage]
        rw [hmsh]

/-- C3 witness: the empty input yields the sentinel patient, a generated
message id and the processing-time timestamp. -/
theorem C3_hl7_parser_graceful_degradation_witness :
    (HL7Parser.parse "" 0 "1970-01-01T00:00:00Z").parsed.patient = HL7Parser.sentinelPatient ∧
    (HL7Parser.parse "" 0 "1970-01-01T00:00:00Z").parsed.messageId = "MSG-" ++ toString 0 ∧
    (HL7Parser.parse "" 0 "1970-01-01T00:00:00Z").parsed.timestamp = "1970-01-01T00:00:00Z" :=
  ⟨(C3_hl7_parser_graceful_degradation "" 0 "1970-01-01T00:00:00Z").1 (by decide),
   (C3_hl7_parser_graceful_degradation "" 0 "1970-01-01T00:00:00Z").2.1 (by decide)⟩

/-- Helper: the bundle loop with accumulator computes the accumulator
followed by the filterMap of the entry list. -/
theorem parseBundleLoop_eq (nowMs : Nat) (nowIso : String) (acc : List ParsedMedicalMessage)
    (entries : List FHIRBundleEntry) :
    FHIRParser.parseBundleLoop nowMs nowIso acc entries =
      acc ++ entries.filterMap (fun e => FHIRParser.parseSingleResource e.resource nowMs nowIso) := by
  induction entries generalizing acc with
  | nil => simp [FHIRParser.parseBundleLoop]
  | cons e rest ih =>
    cases h : FHIRParser.parseSingleResource e.resource nowMs nowIso with
    | none =>
      simp only [FHIRParser.parseBundleLoop, h, List.filterMap_cons]
      exact ih acc
    | some p =>
      simp only [FHIRParser.parseBundleLoop, h, List.filterMap_cons]
      rw [ih]
      simp

/-- Helper: a resource parses to a message exactly when it is supported. -/
theorem parseSingleResource_isSome (r : FHIRResource) (nowMs : Nat) (nowIso : String) :
    (FHIRParser.parseSingleResource r nowMs nowIso).isSome = FHIRParser.isSupported r := by
  cases r <;> rfl

/-- Helper: the filterMap over entries keeps exactly the supported ones. -/
theorem fanout_length (nowMs : Nat) (nowIso : String) (l : List FHIRBundleEntry) :
    (l.filterMap (fun e => FHIRParser.parseSingleResource e.resource nowMs nowIso)).length =
      (l.filter (fun e => FHIRParser.isSupported e.resource)).length := by
  induction l with
  | nil => rfl
  | cons e rest ih =>
    simp only [List.filterMap_cons, List.filter_cons]
    cases hps : FHIRParser.parseSingleResource e.resource nowMs nowIso with
    | none =>
      have hs : FHIRParser.isSupported e.resource = false := by
        rw [← parseSingleResource_isSome e.resource nowMs nowIso, hps]
        rfl
      rw [hs]
      simpa using ih
    | some p =>
      have hs : FHIRParser.isSupported e.resource = true := by
        rw [← parseSingleResource_isSome e.resource nowMs nowIso, hps]
        rfl
      rw [hs]
      simpa using ih

/-- C8: a Bundle fans out to exactly one canonical message per supported
entry, preserving entry order (the result is the order-preserving filterMap
of the entries); its length is the number of supported entries; an entry
parses to a message exactly when its resource type is supported; and a
single unsupported resource yields the empty result list. -/
theorem C8_bundle_fanout (b : FHIRBundle) (nowMs : Nat) (nowIso : String) :
    (FHIRParser.parse (.bundle b) nowMs nowIso =
      (b.entry.getD []).filterMap
        (fun e => FHIRParser.parseSingleResource e.resource nowMs nowIso)) ∧
    ((FHIRParser.parse (.bundle b) nowMs nowIso).length =
      ((b.entry.getD []).filter (fun e => FHIRParser.isSupported e.resource)).length) ∧
    (∀ r : FHIRResource,
      (FHIRParser.parseSingleResource r nowMs nowIso).isSome = FHIRParser.isSupported r) ∧
    (∀ r : FHIRResource, FHIRParser.isSupported r = false →
      FHIRParser.parse (.single r) nowMs nowIso = []) := by
  have h1 : FHIRParser.parse (.bundle b) nowMs nowIso =
      (b.entry.getD []).filterMap
        (fun e => FHIRParser.parseSingleResource e.resource nowMs nowIso) := by
    rcases hb : b.entry with _ | entries
    · simp [FHIRParser.parse, FHIRParser.parseBundle, hb]
    · simp only [FHIRParser.parse, FHIRParser.parseBundle, hb, Option.getD_some]
      split
      · next h =>
        rw [List.length_eq_zero.mp h]
        rfl
      · rw [parseBundleLoop_eq]
        simp
  refine ⟨h1, ?_, ?_, ?_⟩
  · rw [h1]
    exact fanout_length nowMs nowIso (b.entry.getD [])
  · intro r
    exact parseSingleResource_isSome r nowMs nowIso
  · intro r hr
    cases r <;> simp_all [FHIRParser.parse, FHIRParser.parseSingleResource, FHIRParser.isSupported]

/-- C8 witness: a single unsupported resource (resource type Patient) yields
the empty result list. -/
theorem C8_bundle_fanout_witness :
    FHIRParser.parse (.single (.other (some "Patient"))) 0 "T" = [] :=
  (C8_bundle_fanout ⟨"collection", none⟩ 0 "T").2.2.2 (.other (some "Patient")) rfl

/-- Helper: a slice lying inside the unpadded part ignores the padding. -/
theorem strSlice_append_left (s : String) (r : List Char) (a b : Nat)
    (hab : a ≤ b) (h : b ≤ s.length) :
    HL7Parser.strSlice ⟨s.data ++ r⟩ a b = HL7Parser.strSlice s a b := by
  simp only [HL7Parser.strSlice]
  rw [List.drop_append_eq_append_drop, List.take_append_eq_append_take]
  have hd : s.data.length = s.length := rfl
  have h0 : (b - a) - (s.data.drop a).length = 0 := by
    rw [List.length_drop]
    omega
  rw [h0, List.take_zero, List.append_nil]

/-- Helper: a two-character slice lying inside the zero padding is 00. -/
theorem strSlice_pad (s : String) (k a b : Nat)
    (h1 : s.length ≤ a) (hab : b - a = 2) (h2 : b ≤ s.length + k) :
    HL7Parser.strSlice ⟨s.data ++ List.replicate k '0'⟩ a b = "00" := by
  simp only [HL7Parser.strSlice]
  have hd : s.data.length = s.length := rfl
  rw [List.drop_append_eq_append_drop, List.drop_eq_nil_of_le (by omega), List.nil_append,
    List.drop_replicate, List.take_replicate]
  have hmin : min (b - a) (k - (a - s.data.length)) = 2 := by omega
  rw [hmin]
  rfl

/-- Helper: a slice starting at or beyond the end of the string is empty. -/
theorem strSlice_empty_of_le (s : String) (a b : Nat) (h : s.length ≤ a) :
    HL7Parser.strSlice s a b = "" := by
  simp only [HL7Parser.strSlice]
  have hd : s.data.length = s.length := rfl
  rw [List.drop_eq_nil_of_le (by omega), List.take_nil]

/-- Helper: a forward slice starting inside the string is nonempty. -/
theorem strSlice_ne_empty (s : String) (a b : Nat) (hab : a < b) (h : a < s.length) :
    HL7Parser.strSlice s a b ≠ "" := by
  simp only [HL7Parser.strSlice]
  intro hcon
  have hdata := congrArg String.data hcon
  have hlen := congrArg List.length hdata
  rw [List.length_take, List.length_drop] at hlen
  have hd : s.data.length = s.length := rfl
  simp only [List.length_nil] at hlen
  omega

/-- C9: on every compact numeric timestamp truncated at a component
boundary (length 8, 10, 12 or 14 digits), the segmented-record formatter
produces the ISO-8601 form obtained by zero-padding the missing hour,
minute and second components and inserting the date and time separators. -/
theorem C9_compact_timestamp_iso (ts : String)
    (_hdig : ts.data.all Char.isDigit)
    (hlen : ts.length = 8 ∨ ts.length = 10 ∨ ts.length = 12 ∨ ts.length = 14) :
    HL7Parser.formatHL7Timestamp ts = isoOfCompact ts := by
  simp only [HL7Parser.formatHL7Timestamp, isoOfCompact]
  rw [if_neg (by omega)]
  rcases hlen with h | h | h | h
  · rw [strSlice_append_left ts _ 0 4 (by omega) (by omega),
      strSlice_append_left ts _ 4 6 (by omega) (by omega),
      strSlice_append_left ts _ 6 8 (by omega) (by omega),
      strSlice_pad ts _ 8 10 (by omega) (by omega) (by omega),
      strSlice_pad ts _ 10 12 (by omega) (by omega) (by omega),
      strSlice_pad ts _ 12 14 (by omega) (by omega) (by omega),
      if_pos (strSlice_empty_of_le ts 8 10 (by omega)),
      if_pos (strSlice_empty_of_le ts 10 12 (by omega)),
      if_pos (strSlice_empty_of_le ts 12 14 (by omega))]
  · rw [strSlice_append_left ts _ 0 4 (by omega) (by omega),
      strSlice_append_left ts _ 4 6 (by omega) (by omega),
      strSlice_append_left ts _ 6 8 (by omega) (by omega),
      strSlice_append_left ts _ 8 10 (by omega) (by omega),
      strSlice_pad ts _ 10 12 (by omega) (by omega) (by omega),
      strSlice_pad ts _ 12 14 (by omega) (by omega) (by omega),
      if_neg (strSlice_ne_empty ts 8 10 (by omega) (by omega)),
      if_pos (strSlice_empty_of_le ts 10 12 (by omega)),
      if_pos (strSlice_empty_of_le ts 12 14 (by omega))]
  · rw [strSlice_append_left ts _ 0 4 (by omega) (by omega),
      strSlice_append_left ts _ 4 6 (by omega) (by omega),
      strSlice_append_left ts _ 6 8 (by omega) (by omega),
      strSlice_append_left ts _ 8 10 (by omega) (by omega),
      strSlice_append_left ts _ 10 12 (by omega) (by omega),
      strSlice_pad ts _ 12 14 (by omega) (by omega) (by omega),
      if_neg (strSlice_ne_empty ts 8 10 (by omega) (by omega)),
      if_neg (strSlice_ne_empty ts 10 12 (by omega) (by omega)),
      if_pos (strSlice_empty_of_le ts 12 14 (by omega))]
  · rw [strSlice_append_left ts _ 0 4 (by omega) (by omega),
      strSlice_append_left ts _ 4 6 (by omega) (by omega),
      strSlice_append_left ts _ 6 8 (by omega) (by omega),
      strSlice_append_left ts _ 8 10 (by omega) (by omega),
      strSlice_append_left ts _ 10 12 (by omega) (by omega),
      strSlice_append_left ts _ 12 14 (by omega) (by omega),
      if_neg (strSlice_ne_empty ts 8 10 (by omega) (by omega)),
      if_neg (strSlice_ne_empty ts 10 12 (by omega) (by omega)),
      if_neg (strSlice_ne_empty ts 12 14 (by omega) (by omega))]

/-- C9 witness: a concrete truncated timestamp of twelve digits formats to
the zero-padded ISO form. -/
theorem C9_compact_timestamp_iso_witness :
    HL7Parser.formatHL7Timestamp "202501311230" = isoOfCompact "202501311230" ∧
    HL7Parser.formatHL7Timestamp "202501311230" = "2025-01-31T12:30:00" :=
  ⟨C9_compact_timestamp_iso "202501311230" (by decide) (by decide), by decide⟩

/-- Helper: a defined value surviving the nullish filter is the original. -/
theorem nn_eq_some {o : Option JVal} {v : JVal} (h : WorkatoWebhook.nn o = some v) :
    o = some v := by
  cases o with
  | none => simp [WorkatoWebhook.nn] at h
  | some x => cases x <;> simp_all [WorkatoWebhook.nn]

/-- Helper: a nullish value is falsy. -/
theorem truthy_nn_none {o : Option JVal} (h : WorkatoWebhook.nn o = none) :
    WorkatoWebhook.truthy o = false := by
  cases o with
  | none => rfl
  | some x => cases x <;> simp_all [WorkatoWebhook.nn, WorkatoWebhook.truthy]

/-- C4: the auto-detecting gateway endpoint follows the exact priority
order: a truthy top-level resourceType routes to the structured-resource
parser; otherwise a truthy embedded-segmented-text alias (hl7_raw, hl7Raw or
raw_hl7) is unwrapped and routed to the segmented-record parser; otherwise a
payload with truthy messageId, patient and content fields passes through;
otherwise a truthy patient_mrn or patientMrn routes to alternate-key
normalization; otherwise the unrecognized-format error is raised; and the
example alternate-key payload normalizes to a canonical message with urgency
stat and mrn E123. -/
theorem C4_workato_format_detection (data : JObj) (nowMs : Nat)
    (nowIso : String) :
    (WorkatoWebhook.truthy (WorkatoWebhook.getField data "resourceType") = true →
      WorkatoWebhook.detectFormat data = .fhir) ∧
    (WorkatoWebhook.truthy (WorkatoWebhook.getField data "resourceType") = false →
      (WorkatoWebhook.truthy (WorkatoWebhook.getField data "hl7_raw")
        || WorkatoWebhook.truthy (WorkatoWebhook.getField data "hl7Raw")
        || WorkatoWebhook.truthy (WorkatoWebhook.getField data "raw_hl7")) = true →
      ∃ t, WorkatoWebhook.detectFormat data = .hl7 t ∧
        (WorkatoWebhook.getField data "hl7_raw" = some t
          ∨ WorkatoWebhook.getField data "hl7Raw" = some t
          ∨ WorkatoWebhook.getField data "raw_hl7" = some t)) ∧
    (WorkatoWebhook.truthy (WorkatoWebhook.getField data "resourceType") = false →
      (WorkatoWebhook.truthy (WorkatoWebhook.getField data "hl7_raw")
        || WorkatoWebhook.truthy (WorkatoWebhook.getField data "hl7Raw")
        || WorkatoWebhook.truthy (WorkatoWebhook.getField data "raw_hl7")) = false →
      (WorkatoWebhook.truthy (WorkatoWebhook.getField data "messageId")
        && WorkatoWebhook.truthy (WorkatoWebhook.getField data "patient")
        && WorkatoWebhook.truthy (WorkatoWebhook.getField data "content")) = true →
      WorkatoWebhook.detectFormat data = .passthrough) ∧
    (WorkatoWebhook.truthy (WorkatoWebhook.getField data "resourceType") = false →
      (WorkatoWebhook.truthy (WorkatoWebhook.getField data "hl7_raw")
        || WorkatoWebhook.truthy (WorkatoWebhook.getField data "hl7Raw")
        || WorkatoWebhook.truthy (WorkatoWebhook.getField data "raw_hl7")) = false →
      (WorkatoWebhook.truthy (WorkatoWebhook.getField data "messageId")
        && WorkatoWebhook.truthy (WorkatoWebhook.getField data "patient")
        && WorkatoWebhook.truthy (WorkatoWebhook.getField data "content")) = false →
      (WorkatoWebhook.truthy (WorkatoWebhook.getField data "patient_mrn")
        || WorkatoWebhook.truthy (WorkatoWebhook.getField data "patientMrn")) = true →
      WorkatoWebhook.detectFormat data = .workatoNormalized) ∧
    (WorkatoWebhook.truthy (WorkatoWebhook.getField data "resourceType") = false →
      (WorkatoWebhook.truthy (WorkatoWebhook.getField data "hl7_raw")
        || WorkatoWebhook.truthy (WorkatoWebhook.getField data "hl7Raw")
        || WorkatoWebhook.truthy (WorkatoWebhook.getField data "raw_hl7")) = false →
      (WorkatoWebhook.truthy (WorkatoWebhook.getField data "messageId")
        && WorkatoWebhook.truthy (WorkatoWebhook.getField data "patient")
        && WorkatoWebhook.truthy (WorkatoWebhook.getField data "content")) = false →
      (WorkatoWebhook.truthy (WorkatoWebhook.getField data "patient_mrn")
        || WorkatoWebhook.truthy (WorkatoWebhook.getField data "patientMrn")) = false →
      WorkatoWebhook.detectFormat data = .unrecognized) ∧
    (WorkatoWebhook.detectFormat (JObj.cons "patient_mrn" (.str "E123") (.cons "urgency" (.str "stat") .nil)) =
        .workatoNormalized ∧
      (WorkatoWebhook.normalizeWorkatoPayload (JObj.cons "patient_mrn" (.str "E123") (.cons "urgency" (.str "stat") .nil)) nowMs nowIso).content.urgency = "stat" ∧
      (WorkatoWebhook.normalizeWorkatoPayload (JObj.cons "patient_mrn" (.str "E123") (.cons "urgency" (.str "stat") .nil)) nowMs nowIso).patient.mrn = "E123") := by
  refine ⟨?_, ?_, ?_, ?_, ?_, ?_⟩
  · intro h1
    simp only [WorkatoWebhook.detectFormat]
    rw [if_pos h1]
  · intro h1 h2
    simp only [WorkatoWebhook.detectFormat]
    rw [if_neg (by simp [h1]), if_pos h2]
    cases hn1 : WorkatoWebhook.nn (WorkatoWebhook.getField data "hl7_raw") with
    | some v => exact ⟨v, rfl, Or.inl (nn_eq_some hn1)⟩
    | none =>
      cases hn2 : WorkatoWebhook.nn (WorkatoWebhook.getField data "hl7Raw") with
      | some v => exact ⟨v, rfl, Or.inr (Or.inl (nn_eq_some hn2))⟩
      | none =>
        cases hn3 : WorkatoWebhook.nn (WorkatoWebhook.getField data "raw_hl7") with
        | some v => exact ⟨v, rfl, Or.inr (Or.inr (nn_eq_some hn3))⟩
        | none =>
          rw [truthy_nn_none hn1, truthy_nn_none hn2, truthy_nn_none hn3] at h2
          simp at h2
  · intro h1 h2 h3
    simp only [WorkatoWebhook.detectFormat]
    rw [if_neg (by simp [h1]), if_neg (by simp [h2]), if_pos h3]
  · intro h1 h2 h3 h4
    simp only [WorkatoWebhook.detectFormat]
    rw [if_neg (by simp [h1]), if_neg (by simp [h2]), if_neg (by simp [h3]), if_pos h4]
  · intro h1 h2 h3 h4
    simp only [WorkatoWebhook.detectFormat]
    rw [if_neg (by simp [h1]), if_neg (by simp [h2]), if_neg (by simp [h3]),
      if_neg (by simp [h4])]
  · exact ⟨rfl, rfl, rfl⟩

/-- C4 witness: concrete payloads exercising the first and fourth detection
branches, with the hypotheses discharged by evaluation. -/
theorem C4_workato_format_detection_witness :
    WorkatoWebhook.detectFormat (JObj.cons "resourceType" (.str "Bundle") .nil) = .fhir ∧
    WorkatoWebhook.detectFormat (JObj.cons "patient_mrn" (.str "E123") (.cons "urgency" (.str "stat") .nil)) =
      .workatoNormalized :=
  ⟨(C4_workato_format_detection (JObj.cons "resourceType" (.str "Bundle") .nil) 0 "T").1 (by decide),
   (C4_workato_format_detection (JObj.cons "patient_mrn" (.str "E123") (.cons "urgency" (.str "stat") .nil))
      0 "T").2.2.2.1 (by decide) (by decide) (by decide) (by decide)⟩

/-- C7: with a nonempty shared secret configured, every POST to a webhook
ingestion path whose bearer token differs from the secret is answered
unauthorized, and the request is never dispatched to a delivery handler, so
the payload reaches neither format detection nor any parser (the body is
read only after this gate in the handler). -/
theorem C7_webhook_auth_gate (secret url authHeader : String)
    (hsecret : secret ≠ "")
    (_hurl : url = "/webhook/workato" ∨ url = "/webhook/fhir" ∨ url = "/webhook/hl7")
    (htok : JsStr.removeFirst authHeader "Bearer " ≠ secret) :
    WorkatoWebhook.handleRequest secret "POST" url authHeader =
      WorkatoWebhook.GatewayOutcome.unauthorized ∧
    ∀ ch : WorkatoWebhook.Channel,
      WorkatoWebhook.handleRequest secret "POST" url authHeader ≠
        WorkatoWebhook.GatewayOutcome.dispatched ch := by
  have hmain : WorkatoWebhook.handleRequest secret "POST" url authHeader =
      WorkatoWebhook.GatewayOutcome.unauthorized := by
    simp only [WorkatoWebhook.handleRequest]
    rw [if_neg (by rintro ⟨-, hm⟩; exact absurd hm (by decide)),
      if_neg (by simp), if_pos ⟨hsecret, htok⟩]
  exact ⟨hmain, fun ch h => WorkatoWebhook.GatewayOutcome.noConfusion (hmain.symm.trans h)⟩

/-- C7 witness: a concrete wrong bearer token against a configured secret is
rejected as unauthorized. -/
theorem C7_webhook_auth_gate_witness :
    WorkatoWebhook.handleRequest "s3cr3t" "POST" "/webhook/workato" "Bearer wrong" =
      WorkatoWebhook.GatewayOutcome.unauthorized :=
  (C7_webhook_auth_gate "s3cr3t" "/webhook/workato" "Bearer wrong" (by decide)
    (Or.inl rfl) (by decide)).1

/-- C10: when the configured webhook secret is the empty string (the
constructor default when the configuration provides none), the bearer check
is skipped entirely: no request is ever answered unauthorized, and every
POST to a webhook ingestion path is dispatched to its delivery handler
regardless of the Authorization header. -/
theorem C10_empty_secret_skips_auth :
    (∀ (method url authHeader : String),
      WorkatoWebhook.handleRequest "" method url authHeader ≠
        WorkatoWebhook.GatewayOutcome.unauthorized) ∧
    (∀ authHeader : String,
      WorkatoWebhook.handleRequest "" "POST" "/webhook/workato" authHeader =
        .dispatched .workato ∧
      WorkatoWebhook.handleRequest "" "POST" "/webhook/fhir" authHeader =
        .dispatched .fhirChannel ∧
      WorkatoWebhook.handleRequest "" "POST" "/webhook/hl7" authHeader =
        .dispatched .hl7Channel) ∧
    WorkatoWebhook.webhookSecretOf none = "" := by
  refine ⟨?_, fun authHeader => ⟨rfl, rfl, rfl⟩, rfl⟩
  intro method url authHeader
  simp only [WorkatoWebhook.handleRequest]
  split_ifs <;> simp_all
